import Mathlib

/-!
Verification development for the alpha-terminal repository.

The repository is a Next.js trading-signals dashboard written in
TypeScript.  The parts embedded here are a shallow model of the
JavaScript values the routes manipulate (JSON-shaped data plus the
coercions the code applies), and direct translations of:

  - normalizeEntry, normalizeStop, extractAi, fallbackSignals and GET of
    src/app/api/signals/route.ts  (suffix V1 below);
  - normalizeEntry, fallbackSignals and GET of src/unnamed/part_002
    (suffix V2 below);
  - cardToSignal and cardsFileToSignals of the signal library
    (src/components/Badge.tsx concatenation, lib/signal.ts);
  - the enriched-metrics computation of src/app/page.tsx;
  - labelRank and the candidate sort of src/unnamed/part_003;
  - assertAuth of src/app/api/ingest-scan/route.ts, mustAuth of
    src/unnamed/part_003 and requireTeachToken of src/unnamed/part_004;
  - the label-write validation of src/unnamed/part_004.

Modelling conventions: JavaScript numbers are rationals plus NaN and the
two infinities (floating-point rounding is not modelled); ToNumber on a
string is a parameter `stn` of every definition that performs it, so the
theorems hold for every string-to-number parser, and `strToNumSimple`
below is the concrete parser used to evaluate witnesses; objects are
association lists whose lookup takes the first occurrence of a key;
Array.prototype.sort with a comparator is modelled as the stable
insertion sort by the preorder "comparator result is nonpositive".
-/

/-- A JavaScript number: NaN, an infinity, or a finite value (modelled as
a rational; floating-point rounding is not modelled). -/
inductive JsNum where
  | nan : JsNum
  | inf : Bool → JsNum
  | fin : ℚ → JsNum
deriving DecidableEq

/-- A JavaScript (JSON-shaped) value. Objects are association lists of
fields in insertion order; lookup takes the first occurrence of a key. -/
inductive JsVal where
  | undefined : JsVal
  | null : JsVal
  | bool : Bool → JsVal
  | num : JsNum → JsVal
  | str : String → JsVal
  | arr : List JsVal → JsVal
  | obj : List (String × JsVal) → JsVal

/-- JavaScript truthiness. -/
def truthy : JsVal → Bool
  | .undefined => false
  | .null => false
  | .bool b => b
  | .num .nan => false
  | .num (.inf _) => true
  | .num (.fin q) => q != 0
  | .str s => s != ""
  | .arr _ => true
  | .obj _ => true

/-- The nullish-coalescing operator `a ?? b`. -/
def orJs (a b : JsVal) : JsVal :=
  match a with
  | .undefined => b
  | .null => b
  | v => v

/-- First occurrence of a key in an object field list. -/
def lookupField (k : String) : List (String × JsVal) → Option JsVal
  | [] => none
  | (k1, v) :: rest => if k1 = k then some v else lookupField k rest

/-- JavaScript property assignment: replace the first occurrence of the
key in place, or append the field when the key is absent. -/
def setField (k : String) (v : JsVal) : List (String × JsVal) → List (String × JsVal)
  | [] => [(k, v)]
  | (k1, v1) :: rest => if k1 = k then (k, v) :: rest else (k1, v1) :: setField k v rest

/-- Property access `v?.k` (also plain `v.k` on primitives, which yields
undefined for every name the embedded code reads). -/
def jsGet (v : JsVal) (k : String) : JsVal :=
  match v with
  | .obj fs => (lookupField k fs).getD .undefined
  | _ => .undefined

/-- Array index access `v?.[i]`. -/
def jsIdx (v : JsVal) (i : ℕ) : JsVal :=
  match v with
  | .arr l => (l.get? i).getD .undefined
  | _ => .undefined

/-- Strict equality of a value with a string literal (`v === "s"`). -/
def strEq (v : JsVal) (s : String) : Bool :=
  match v with
  | .str t => t = s
  | _ => false

/-- JavaScript number formatting, used by String(...) on numbers. The
decimal rendering of non-integral finite values is abbreviated to the
rational literal; no embedded claim depends on it. -/
def numToString : JsNum → String
  | .nan => "NaN"
  | .inf true => "Infinity"
  | .inf false => "-Infinity"
  | .fin q => if q.den = 1 then toString q.num else toString q

mutual

/-- JavaScript ToString for the values the embedded code stringifies. An
array stringifies as its elements joined by commas, with null and
undefined elements contributing the empty string. -/
def jsToString : JsVal → String
  | .undefined => "undefined"
  | .null => "null"
  | .bool b => if b then "true" else "false"
  | .num n => numToString n
  | .str s => s
  | .arr l => String.intercalate "," (jsToStringList l)
  | .obj _ => "[object Object]"

/-- Element-wise ToString inside an array join. -/
def jsToStringList : List JsVal → List String
  | [] => []
  | x :: xs =>
    (match x with
     | .undefined => ""
     | .null => ""
     | v => jsToString v) :: jsToStringList xs

end

/-- JavaScript ToNumber. The string case is the parameter `stn`, so every
theorem quantifying over `stn` holds for any string-to-number parser;
objects and arrays are first converted to strings (ToPrimitive with the
default toString) and then parsed. -/
def toNumber (stn : String → JsNum) : JsVal → JsNum
  | .undefined => .nan
  | .null => .fin 0
  | .bool b => .fin (if b then 1 else 0)
  | .num n => n
  | .str s => stn s
  | .arr l => stn (jsToString (.arr l))
  | .obj fs => stn (jsToString (.obj fs))

/-- The helper `num(x, d)` of src/app/page.tsx: ToNumber followed by a
Number.isFinite check, returning the default on NaN or an infinity. -/
def numD (stn : String → JsNum) (v : JsVal) (d : ℚ) : ℚ :=
  match toNumber stn v with
  | .fin q => q
  | _ => d

/-- Decimal value of a digit list. -/
def digitsNat (l : List Char) : ℕ :=
  l.foldl (fun a c => a * 10 + (c.toNat - 48)) 0

/-- Concrete string-to-number parser used to instantiate `stn` in
witnesses: a trimmed empty string is 0, Infinity forms are infinities,
otherwise an optional sign followed by decimal digits with an optional
fractional part; exponent and hex forms, which no witness exercises, are
not modelled and parse as NaN. -/
def strToNumSimple (s : String) : JsNum :=
  let cs := ((s.data.dropWhile Char.isWhitespace).reverse.dropWhile
    Char.isWhitespace).reverse
  if cs = [] then .fin 0
  else if cs = "Infinity".data then .inf true
  else if cs = "+Infinity".data then .inf true
  else if cs = "-Infinity".data then .inf false
  else
    let sgn : ℚ := match cs with
      | '-' :: _ => -1
      | _ => 1
    let u : List Char := match cs with
      | '-' :: rest => rest
      | '+' :: rest => rest
      | _ => cs
    match u.splitOn '.' with
    | [ip] =>
      if ip ≠ [] ∧ ip.all Char.isDigit then .fin (sgn * (digitsNat ip : ℚ))
      else .nan
    | [ip, fp] =>
      if (ip ≠ [] ∨ fp ≠ []) ∧ ip.all Char.isDigit ∧ fp.all Char.isDigit then
        .fin (sgn * ((digitsNat ip : ℚ) + (digitsNat fp : ℚ) / (10 : ℚ) ^ fp.length))
      else .nan
    | _ => .nan

/-- JavaScript addition on numbers (both operands already numeric). -/
def jsAdd : JsNum → JsNum → JsNum
  | .nan, _ => .nan
  | _, .nan => .nan
  | .inf a, .inf b => if a = b then .inf a else .nan
  | .inf a, .fin _ => .inf a
  | .fin _, .inf b => .inf b
  | .fin a, .fin b => .fin (a + b)

/-- JavaScript subtraction on numbers. -/
def jsSub : JsNum → JsNum → JsNum
  | .nan, _ => .nan
  | _, .nan => .nan
  | .inf a, .inf b => if a = b then .nan else .inf a
  | .inf a, .fin _ => .inf a
  | .fin _, .inf b => .inf !b
  | .fin a, .fin b => .fin (a - b)

/-- JavaScript multiplication on numbers. -/
def jsMul : JsNum → JsNum → JsNum
  | .nan, _ => .nan
  | _, .nan => .nan
  | .inf a, .inf b => .inf (a = b)
  | .inf a, .fin q => if q = 0 then .nan else .inf (a = decide (0 < q))
  | .fin q, .inf b => if q = 0 then .nan else .inf (b = decide (0 < q))
  | .fin a, .fin b => .fin (a * b)

/-- JavaScript division on numbers (negative zero is not modelled; a zero
divisor counts as positive zero). -/
def jsDiv : JsNum → JsNum → JsNum
  | .nan, _ => .nan
  | _, .nan => .nan
  | .inf _, .inf _ => .nan
  | .inf a, .fin q => .inf (a = decide (0 ≤ q))
  | .fin _, .inf _ => .fin 0
  | .fin a, .fin b =>
    if b = 0 then (if a = 0 then .nan else .inf (decide (0 < a))) else .fin (a / b)

/-- Math.min on two numbers. -/
def jsMin : JsNum → JsNum → JsNum
  | .nan, _ => .nan
  | _, .nan => .nan
  | .inf true, b => b
  | a, .inf true => a
  | .inf false, _ => .inf false
  | _, .inf false => .inf false
  | .fin a, .fin b => .fin (min a b)

/-- Math.max on two numbers. -/
def jsMax : JsNum → JsNum → JsNum
  | .nan, _ => .nan
  | _, .nan => .nan
  | .inf false, b => b
  | a, .inf false => a
  | .inf true, _ => .inf true
  | _, .inf true => .inf true
  | .fin a, .fin b => .fin (max a b)

/-- Whether `typeof v === "object"` and v is truthy (objects and arrays;
null is excluded by the truthiness guard in the code below). -/
def isObjLike : JsVal → Bool
  | .obj _ => true
  | .arr _ => true
  | _ => false

/-- Spread `{...v}`: own enumerable fields of a value. An object
contributes its fields, an array and a string contribute index-keyed
fields, other primitives contribute nothing. -/
def spreadFields : JsVal → List (String × JsVal)
  | .obj fs => fs
  | .arr l => (l.enum).map (fun p => (Nat.repr p.1, p.2))
  | .str s => ((s.data.map (fun c => JsVal.str (String.singleton c))).enum).map
      (fun p => (Nat.repr p.1, p.2))
  | _ => []

/-- One numeric-coercion step of normalizeEntry in
src/app/api/signals/route.ts: when the key is present with a value whose
typeof is not undefined, overwrite it with Number of itself. -/
def coerceNumField (stn : String → JsNum) (k : String)
    (fs : List (String × JsVal)) : List (String × JsVal) :=
  match lookupField k fs with
  | some .undefined => fs
  | some v => setField k (.num (toNumber stn v)) fs
  | none => fs

/-- The in-place coercion of zone.low and zone.high in normalizeEntry of
src/app/api/signals/route.ts. -/
def coerceZone (stn : String → JsNum) : JsVal → JsVal
  | .obj zf => .obj (coerceNumField stn "high" (coerceNumField stn "low" zf))
  | z => z

/-- The zone step of normalizeEntry of src/app/api/signals/route.ts:
entered when the zone field is truthy and typeof object. -/
def coerceZoneField (stn : String → JsNum)
    (fs : List (String × JsVal)) : List (String × JsVal) :=
  match lookupField "zone" fs with
  | some z => if truthy z && isObjLike z then setField "zone" (coerceZone stn z) fs else fs
  | none => fs

/-- normalizeEntry of src/app/api/signals/route.ts (lines 18-30): falsy
entries become the empty object; otherwise the entry is spread and its
trigger, zone bounds and price are coerced to numbers when present. -/
def normalizeEntryV1 (stn : String → JsNum) (entry : JsVal) : JsVal :=
  if truthy entry then
    .obj (coerceNumField stn "price"
      (coerceZoneField stn
        (coerceNumField stn "trigger" (spreadFields entry))))
  else .obj []

/-- normalizeEntry of src/unnamed/part_002 (lines 12-21): synthesizes an
entry price from the trigger or the zone midpoint when no numeric price
is present. -/
def normalizeEntryV2 (entry : JsVal) : JsVal :=
  if truthy entry then
    match entry with
    | .num n => .obj [("price", .num n)]
    | e =>
      match jsGet e "price" with
      | .num _ => e
      | _ =>
        match jsGet e "trigger" with
        | .num t => .obj (setField "price" (.num t) (spreadFields e))
        | _ =>
          if truthy (jsGet e "zone") then
            match jsGet (jsGet e "zone") "low", jsGet (jsGet e "zone") "high" with
            | .num lo, .num hi =>
              .obj (setField "price" (.num (jsDiv (jsAdd lo hi) (.fin 2))) (spreadFields e))
            | _, _ => e
          else e
  else .obj [("price", .null)]

/-- normalizeStop of src/app/api/signals/route.ts (lines 32-37). -/
def normalizeStop (stn : String → JsNum) (stop : JsVal) : JsVal :=
  if truthy stop then
    match stop with
    | .num n => .obj [("price", .num n)]
    | s =>
      let price := orJs (jsGet s "price") (orJs (jsGet s "stop")
        (orJs (jsGet s "stop_price") (.num (.fin 0))))
      .obj (setField "price" (.num (toNumber stn (orJs price (.num (.fin 0)))))
        (spreadFields s))
  else .obj [("price", .num (.fin 0))]

/-- extractAi of src/app/api/signals/route.ts (lines 39-50). -/
def extractAi (entry : JsVal) : JsVal :=
  let ai := orJs (jsGet entry "ai") (orJs (jsGet entry "AI") .null)
  if truthy ai then
    .obj [("probability", orJs (jsGet ai "probability") .null),
          ("confidence", orJs (jsGet ai "confidence") .null),
          ("why", orJs (jsGet ai "why") .null),
          ("chosen_stop", orJs (jsGet ai "chosen_stop") .null),
          ("stop_ladder", orJs (jsGet ai "stop_ladder") .null),
          ("runtime_ms", orJs (jsGet ai "runtime_ms") .null)]
  else .null

/-- Object literal semantics: fields are assigned left to right, a later
same-named field (for example from a trailing spread) overwriting an
earlier one in place. -/
def putAll (acc : List (String × JsVal)) (ps : List (String × JsVal)) :
    List (String × JsVal) :=
  ps.foldl (fun a p => setField p.1 p.2 a) acc

/-- An object literal built from the listed fields in order. -/
def objLit (ps : List (String × JsVal)) : JsVal :=
  .obj (putAll [] ps)

/-- cardToSignal of the signal library (src/components/Badge.tsx
concatenation, lib/signal.ts lines 92-127). The card is given as its
field list. Note the trailing `...card` spread in the returned object
literal: the card fields are assigned after the explicit ones. -/
def cardToSignal (stn : String → JsNum) (card : List (String × JsVal))
    (as_of : String) (defaultLabel : String) : JsVal :=
  let labels : List JsVal :=
    match lookupField "labels" card with
    | some (.arr l) => l
    | _ => []
  let label : JsVal := orJs (labels.head?.getD .undefined) (.str defaultLabel)
  let plan : JsVal := orJs ((lookupField "plan" card).getD .undefined) (.obj [])
  let pentry := jsGet plan "entry"
  let entry : JsVal :=
    if strEq (jsGet pentry "type") "breakout_confirmation" then
      .obj [("type", .str "breakout_confirmation"),
            ("trigger", jsGet pentry "trigger"), ("why", jsGet pentry "why")]
    else if strEq (jsGet pentry "type") "value_zone" then
      .obj [("type", .str "value_zone"),
            ("zone", jsGet pentry "zone"), ("why", jsGet pentry "why")]
    else .obj [("price", (lookupField "price" card).getD .undefined)]
  let stopPrice : JsVal :=
    match jsGet (jsGet plan "exit_if_wrong") "stop" with
    | .num n => .num n
    | _ => jsGet ((lookupField "stop" card).getD .undefined) "price"
  let targets : JsVal :=
    match jsGet plan "targets" with
    | .arr ts => .arr (ts.map (fun t => .obj [("price", .num (toNumber stn (jsGet t "price")))]))
    | _ =>
      match lookupField "targets" card with
      | some (.arr ts) => .arr ts
      | _ => .arr []
  objLit
    ([("as_of", .str as_of),
      ("ticker", (lookupField "ticker" card).getD .undefined),
      ("label", label),
      ("plan_type", orJs (jsGet pentry "type") (.str "unknown")),
      ("entry", entry),
      ("stop", .obj [("price", .num (toNumber stn (orJs stopPrice (.num (.fin 0)))))]),
      ("targets", targets),
      ("vol_z", (lookupField "vol_z" card).getD .undefined),
      ("rs_vs_spy", orJs ((lookupField "rs_vs_spy" card).getD .undefined)
        ((lookupField "rs_60d_vs_spy" card).getD .undefined)),
      ("learned_top_rules", (lookupField "learned_top_rules" card).getD .undefined)]
     ++ card)

/-- A CardsFile: as_of timestamp (optional in the JSON) and the cards,
each given as its field list. -/
structure CardsFileM where
  as_of : Option String
  cards : List (List (String × JsVal))

/-- cardsFileToSignals of the signal library (lib/signal.ts lines
129-132); `now` stands for new Date().toISOString(), used when the file
has no as_of. -/
def cardsFileToSignals (stn : String → JsNum) (f : CardsFileM)
    (defaultLabel : String) (now : String) : List JsVal :=
  f.cards.map (fun c => cardToSignal stn c (f.as_of.getD now) defaultLabel)

/-- Sort key of the static-fallback sort in src/app/api/signals/route.ts
line 75: String(created_at ?? as_of ?? ""). -/
def fbKey (s : JsVal) : String :=
  jsToString (orJs (jsGet s "created_at") (orJs (jsGet s "as_of") (.str "")))

/-- The comparator (a, b) => String(b.key).localeCompare(String(a.key))
is nonpositive exactly when the key of b is at most the key of a, so the
stable sort it induces is descending by key. localeCompare on the
fixed-width ISO-8601 timestamps the data carries coincides with
code-point string order. -/
def fbLe (a b : JsVal) : Prop := fbKey b ≤ fbKey a

instance : DecidableRel fbLe := fun a b => by
  unfold fbLe; infer_instance

/-- fallbackSignals of src/app/api/signals/route.ts (lines 52-77): each
of the three snapshot files is read independently, a failed read (None)
contributing nothing; the concatenation is sorted by descending
created_at / as_of. -/
def fallbackSignalsV1 (stn : String → JsNum) (ready early watch : Option CardsFileM)
    (now : String) : List JsVal :=
  let out :=
    (match ready with
     | some f => cardsFileToSignals stn f "READY_CONFIRMED" now
     | none => []) ++
    (match early with
     | some f => cardsFileToSignals stn f "EARLY" now
     | none => []) ++
    (match watch with
     | some f => cardsFileToSignals stn f "WATCH" now
     | none => [])
  List.insertionSort fbLe out

/-- fallbackSignals of src/unnamed/part_002 (lines 36-48): the three
snapshot reads run under Promise.all with no catch, so any failed read
(Except.error) rejects the whole invocation. The rejection reason is
modelled deterministically as the first failing file in list order. -/
def fallbackSignalsV2 (stn : String → JsNum)
    (ready early watch : Except String CardsFileM) (now : String) :
    Except String (List JsVal) :=
  match ready, early, watch with
  | .ok r, .ok e, .ok w =>
    .ok ((cardsFileToSignals stn r "READY_CONFIRMED" now ++
          cardsFileToSignals stn e "EARLY" now ++
          cardsFileToSignals stn w "WATCH" now).map
      (fun s => objLit (spreadFields s ++ [("entry", normalizeEntryV2 (jsGet s "entry"))])))
  | .error m, _, _ => .error m
  | _, .error m, _ => .error m
  | _, _, .error m => .error m

/-- Truncation toward zero, as ToIntegerOrInfinity applies to a finite
argument of Array.prototype.slice. -/
def ratTrunc (q : ℚ) : ℤ := if 0 ≤ q then ⌊q⌋ else ⌈q⌉

/-- Array.prototype.slice(0, e) for a numeric end argument: NaN counts as
zero, a negative end counts from the end of the array. -/
def jsSlice0 (l : List JsVal) (e : JsNum) : List JsVal :=
  match e with
  | .nan => []
  | .inf true => l
  | .inf false => []
  | .fin q =>
    let t := ratTrunc q
    if t < 0 then l.take ((l.length + t).toNat) else l.take t.toNat

/-- The row count requested from the store by GET of
src/app/api/signals/route.ts line 81:
Math.min(Number(limit param ?? "200"), 1000). -/
def requestedLimitV1 (stn : String → JsNum) (limitParam : Option String) : JsNum :=
  jsMin (toNumber stn (.str (limitParam.getD "200"))) (.fin 1000)

/-- The row count requested from the store by GET of src/unnamed/part_002
line 62: Math.min(Math.max(Number(limit param ?? "200"), 1), 1000). -/
def requestedLimitV2 (stn : String → JsNum) (limitParam : Option String) : JsNum :=
  jsMin (jsMax (toNumber stn (.str (limitParam.getD "200"))) (.fin 1)) (.fin 1000)

/-- Row post-processing of the primary branch of GET in
src/app/api/signals/route.ts (lines 96-110). -/
def normalizeRowV1 (stn : String → JsNum) (s : JsVal) : JsVal :=
  let entry := normalizeEntryV1 stn (jsGet s "entry")
  let ai := extractAi entry
  objLit (spreadFields s ++
    [("entry", entry),
     ("stop", normalizeStop stn (jsGet s "stop")),
     ("targets", match jsGet s "targets" with | .arr t => .arr t | _ => .arr []),
     ("probability", orJs (jsGet ai "probability") (orJs (jsGet s "probability") .null)),
     ("confidence", orJs (jsGet ai "confidence") (orJs (jsGet s "confidence") .null)),
     ("why", orJs (jsGet ai "why") (orJs (jsGet s "why") .null)),
     ("chosen_stop", orJs (jsGet ai "chosen_stop") (orJs (jsGet s "chosen_stop") .null)),
     ("stop_ladder", orJs (jsGet ai "stop_ladder") (orJs (jsGet s "stop_ladder") .null))])

/-- Outcome of the primary-store interaction for
src/app/api/signals/route.ts: an exception thrown before or at the query
(including the missing-environment throw of getSupabase), a responded
error object, or the returned rows. -/
inductive StoreV1 where
  | throwsBefore : String → StoreV1
  | queryError : String → StoreV1
  | rows : List JsVal → StoreV1

/-- Response shape of GET in src/app/api/signals/route.ts. -/
structure RespV1 where
  source : String
  as_of : JsVal
  error : Option String
  signals : List JsVal

/-- The label filter `label ? fb.filter((s) => s.label === label) : fb`
shared by both GET fallback paths (an empty label string is falsy and
disables the filter). -/
def labelFilter (label : Option String) (fb : List JsVal) : List JsVal :=
  match label with
  | some l => if l = "" then fb else fb.filter (fun s => strEq (jsGet s "label") l)
  | none => fb

/-- GET of src/app/api/signals/route.ts (lines 79-121). -/
def GETv1 (stn : String → JsNum) (limitParam : Option String) (label : Option String)
    (outcome : StoreV1) (ready early watch : Option CardsFileM) (now : String) : RespV1 :=
  let limit := requestedLimitV1 stn limitParam
  match outcome with
  | .throwsBefore m =>
    let fb := fallbackSignalsV1 stn ready early watch now
    let filtered := labelFilter label fb
    let sliced := jsSlice0 filtered (jsMin (.fin (filtered.length : ℚ)) limit)
    { source := "fallback",
      as_of := orJs (jsGet (sliced.head?.getD .undefined) "created_at")
        (orJs (jsGet (sliced.head?.getD .undefined) "as_of") .null),
      error := some m, signals := sliced }
  | .queryError m =>
    let fb := fallbackSignalsV1 stn ready early watch now
    { source := "fallback_after_db_error",
      as_of := orJs (jsGet (fb.head?.getD .undefined) "created_at")
        (orJs (jsGet (fb.head?.getD .undefined) "as_of") .null),
      error := some m, signals := fb }
  | .rows data =>
    let normalized := data.map (normalizeRowV1 stn)
    { source := "supabase",
      as_of := orJs (jsGet (normalized.head?.getD .undefined) "created_at") .null,
      error := none, signals := normalized }

/-- Outcome of the primary-store interaction for src/unnamed/part_002:
the store is unconfigured (supabaseIfConfigured returned null), or it
responded with an error object, or it returned rows. -/
inductive StoreV2 where
  | noConfig : StoreV2
  | queryError : String → StoreV2
  | rows : List JsVal → StoreV2

/-- Response shape of GET in src/unnamed/part_002 (it carries no as_of
field). -/
structure RespV2 where
  source : String
  error : Option String
  signals : List JsVal

/-- GET of src/unnamed/part_002 (lines 50-80). The route has no
try/catch, so a rejected fallbackSignals propagates as Except.error. -/
def GETv2 (stn : String → JsNum) (limitParam : Option String) (label : Option String)
    (outcome : StoreV2) (ready early watch : Except String CardsFileM) (now : String) :
    Except String RespV2 :=
  let limit := toNumber stn (.str (limitParam.getD "200"))
  match outcome with
  | .noConfig =>
    (fallbackSignalsV2 stn ready early watch now).map (fun fb =>
      let filtered := labelFilter label fb
      { source := "fallback", error := none,
        signals := jsSlice0 filtered (jsMin (.fin (filtered.length : ℚ)) limit) })
  | .queryError m =>
    (fallbackSignalsV2 stn ready early watch now).map (fun fb =>
      { source := "fallback_after_db_error", error := some m, signals := fb })
  | .rows data =>
    .ok { source := "supabase", error := none,
          signals := data.map
            (fun s => objLit (spreadFields s ++ [("entry", normalizeEntryV2 (jsGet s "entry"))])) }

/-- The ai sub-object `s.entry?.ai ?? null` of the enriched computation in
src/app/page.tsx line 109. -/
def aiD (s : JsVal) : JsVal := orJs (jsGet (jsGet s "entry") "ai") .null

/-- probability of the enriched computation in src/app/page.tsx line 110:
s.probability ?? ai?.probability ?? null. -/
def probJsD (s : JsVal) : JsVal :=
  orJs (jsGet s "probability") (orJs (jsGet (aiD s) "probability") .null)

/-- chosen_stop of the enriched computation in src/app/page.tsx line 114. -/
def chosenStopD (s : JsVal) : JsVal :=
  orJs (jsGet s "chosen_stop") (orJs (jsGet (aiD s) "chosen_stop") .null)

/-- entryRef of the enriched computation in src/app/page.tsx line 116:
num(entry?.trigger ?? entry?.price ?? entry?.zone?.low ?? 0). -/
def entryRefD (stn : String → JsNum) (s : JsVal) : ℚ :=
  numD stn (orJs (jsGet (jsGet s "entry") "trigger")
    (orJs (jsGet (jsGet s "entry") "price")
      (orJs (jsGet (jsGet (jsGet s "entry") "zone") "low") (.num (.fin 0))))) 0

/-- tp1 of the enriched computation in src/app/page.tsx line 117:
num(targets?.[0]?.price ?? 0). -/
def tp1D (stn : String → JsNum) (s : JsVal) : ℚ :=
  numD stn (orJs (jsGet (jsIdx (jsGet s "targets") 0) "price") (.num (.fin 0))) 0

/-- stopPrice of the enriched computation in src/app/page.tsx line 118:
num(stop?.price ?? chosen_stop?.stop_price ?? 0). -/
def stopPriceD (stn : String → JsNum) (s : JsVal) : ℚ :=
  numD stn (orJs (jsGet (jsGet s "stop") "price")
    (orJs (jsGet (chosenStopD s) "stop_price") (.num (.fin 0)))) 0

/-- risk of src/app/page.tsx line 120. -/
def riskD (stn : String → JsNum) (s : JsVal) : ℚ := entryRefD stn s - stopPriceD stn s

/-- reward of src/app/page.tsx line 121. -/
def rewardD (stn : String → JsNum) (s : JsVal) : ℚ := tp1D stn s - entryRefD stn s

/-- rr of src/app/page.tsx line 122:
risk > 0 && reward > 0 ? reward / risk : 0. -/
def rrD (stn : String → JsNum) (s : JsVal) : ℚ :=
  if 0 < riskD stn s ∧ 0 < rewardD stn s then rewardD stn s / riskD stn s else 0

/-- ev of src/app/page.tsx line 123:
(probability ?? 0) * rr - (1 - (probability ?? 0)), the multiplications
and subtractions coercing the coalesced probability with ToNumber. -/
def evD (stn : String → JsNum) (s : JsVal) : JsNum :=
  let p := toNumber stn (orJs (probJsD s) (.num (.fin 0)))
  jsSub (jsMul p (.fin (rrD stn s))) (jsSub (.fin 1) p)

/-- A candidate row as selected by GET of src/unnamed/part_003 line 48
(id, ticker, label, plan_type, rs_vs_spy, vol_z); rs_vs_spy and vol_z
are nullable numerics. -/
structure CandRow where
  ticker : String
  label : String
  rs_vs_spy : Option ℚ
  vol_z : Option ℚ

/-- labelRank of src/unnamed/part_003 (lines 56-61). -/
def labelRank (lbl : String) : ℕ :=
  if lbl = "READY_CONFIRMED" then 0
  else if "EARLY".data <:+: lbl.data then 1
  else if lbl = "WATCH" then 2
  else 3

/-- The comparator body of the candidate sort in src/unnamed/part_003
(lines 65-75): label rank difference, then rs descending, then vol_z
descending, with null metrics counting as 0. -/
def candCmp (a b : CandRow) : ℚ :=
  if labelRank a.label ≠ labelRank b.label then
    (labelRank a.label : ℚ) - (labelRank b.label : ℚ)
  else if a.rs_vs_spy.getD 0 ≠ b.rs_vs_spy.getD 0 then
    b.rs_vs_spy.getD 0 - a.rs_vs_spy.getD 0
  else b.vol_z.getD 0 - a.vol_z.getD 0

/-- The preorder induced by the comparator: a sorts no later than b when
the comparator result is nonpositive. -/
def candLe (a b : CandRow) : Prop := candCmp a b ≤ 0

instance : DecidableRel candLe := fun a b => by
  unfold candLe; infer_instance

/-- The candidate ranking of src/unnamed/part_003 (lines 63-76): stable
sort by the comparator, then slice(0, 10). -/
def reviewRank (l : List CandRow) : List CandRow :=
  (List.insertionSort candLe l).take 10

/-- The ranking described by the spec: sort by the tuple
(labelRank, -rs_vs_spy, -vol_z) in lexicographic order, ties keeping the
original order, truncated to the top 10. Written from the words of the
spec, to be compared with reviewRank. -/
def specLe (a b : CandRow) : Prop :=
  labelRank a.label < labelRank b.label ∨
    (labelRank a.label = labelRank b.label ∧
      (b.rs_vs_spy.getD 0 < a.rs_vs_spy.getD 0 ∨
        (a.rs_vs_spy.getD 0 = b.rs_vs_spy.getD 0 ∧ b.vol_z.getD 0 ≤ a.vol_z.getD 0)))

instance : DecidableRel specLe := fun a b => by
  unfold specLe; infer_instance

/-- Spec-side review ranking (see specLe). -/
def specReviewRank (l : List CandRow) : List CandRow :=
  (List.insertionSort specLe l).take 10

/-- Replace the first occurrence of a pattern in a string, as
String.prototype.replace with a plain-string pattern does. -/
def replaceFirst (s pat : String) : String :=
  match s.splitOn pat with
  | [] => s
  | [_] => s
  | x :: rest => x ++ String.intercalate pat rest

/-- Strip a leading case-insensitive "Bearer" followed by whitespace, as
the regex replacement in assertAuth of src/app/api/ingest-scan/route.ts
line 18 does. -/
def stripBearerCI (s : String) : String :=
  if (s.data.take 6).map Char.toLower = "bearer".data then
    match s.data.drop 6 with
    | c :: rest =>
      if c.isWhitespace then String.mk ((c :: rest).dropWhile Char.isWhitespace) else s
    | [] => s
  else s

/-- assertAuth of src/app/api/ingest-scan/route.ts (lines 13-21), as the
predicate "the request passes" (true means no throw). A missing or empty
INGEST_TOKEN is falsy, so the check returns before comparing anything. -/
def assertAuth (ingestToken : Option String) (xIngestHeader : Option String)
    (authHeader : Option String) : Bool :=
  match ingestToken with
  | none => true
  | some w =>
    if w = "" then true
    else
      let got :=
        match xIngestHeader with
        | some g => g
        | none =>
          match authHeader with
          | some h => stripBearerCI h
          | none => ""
      got = w

/-- mustAuth of src/unnamed/part_003 (lines 17-23): false when TEACH_TOKEN
is unset or empty, or when the stripped authorization header differs
from it. -/
def mustAuth (teachToken : Option String) (authHeader : Option String) : Bool :=
  let token : Option String := authHeader.map (fun h => replaceFirst h "Bearer ")
  match teachToken with
  | none => false
  | some t => if t = "" then false else token = some t

/-- requireTeachToken of src/unnamed/part_004 (lines 18-21):
Boolean(TEACH_TOKEN && token === TEACH_TOKEN). -/
def requireTeachToken (teachToken : Option String) (authHeader : Option String) : Bool :=
  let token : Option String := authHeader.map (fun h => replaceFirst h "Bearer ")
  match teachToken with
  | none => false
  | some t => if t = "" then false else token = some t

/-- The row inserted into teach_labels by POST of src/unnamed/part_004
(lines 41-53). -/
structure LabelRow where
  ticker : JsVal
  mode : JsVal
  idea_source : JsVal
  timeframe : JsVal
  entry_reasons : List JsVal
  exit_intent : JsVal
  confidence : JsNum
  notes : JsVal
  scan_run_id : JsVal
  signal_id : JsVal

/-- The emptiness test of the minimal validation in src/unnamed/part_004
line 34: body[k] === undefined || body[k] === null || body[k] === "". -/
def missingOrEmpty (v : JsVal) : Bool :=
  match v with
  | .undefined => true
  | .null => true
  | .str "" => true
  | _ => false

/-- The validation and row construction of POST in src/unnamed/part_004
(lines 29-53), after authorization: the first required field that is
missing or empty yields the 400 error, otherwise the row is built, with
entry_reasons truncated to 2 and confidence coerced by Number. -/
def writeLabel (stn : String → JsNum) (body : JsVal) : Except String LabelRow :=
  match ["ticker", "mode", "idea_source", "timeframe", "exit_intent",
         "confidence"].find? (fun k => missingOrEmpty (jsGet body k)) with
  | some k => .error ("missing " ++ k)
  | none =>
    .ok { ticker := jsGet body "ticker"
          mode := jsGet body "mode"
          idea_source := jsGet body "idea_source"
          timeframe := jsGet body "timeframe"
          entry_reasons :=
            match jsGet body "entry_reasons" with
            | .arr l => l.take 2
            | _ => []
          exit_intent := jsGet body "exit_intent"
          confidence := toNumber stn (jsGet body "confidence")
          notes := orJs (jsGet body "notes") .null
          scan_run_id := orJs (jsGet body "scan_run_id") .null
          signal_id := orJs (jsGet body "signal_id") .null }

/-- Concrete signal used to evaluate the enriched-metrics theorems:
entry trigger 1, stop 0, first target 3, no probability. -/
def sampleSignal : JsVal :=
  .obj [("entry", .obj [("trigger", .num (.fin 1))]),
        ("stop", .obj [("price", .num (.fin 0))]),
        ("targets", .arr [.obj [("price", .num (.fin 3))]])]

/-- Concrete signal whose entry reference equals its stop price. -/
def sampleSignalFlat : JsVal :=
  .obj [("entry", .obj [("trigger", .num (.fin 5))]),
        ("stop", .obj [("price", .num (.fin 5))]),
        ("targets", .arr [.obj [("price", .num (.fin 9))]])]

/-- The three-candidate batch of the ranking scenario: labels WATCH,
READY_CONFIRMED, EARLY_BREAKOUT with equal rs and vol_z. -/
def candExample : List CandRow :=
  [⟨"T1", "WATCH", some 1, some 1⟩,
   ⟨"T2", "READY_CONFIRMED", some 1, some 1⟩,
   ⟨"T3", "EARLY_BREAKOUT", some 1, some 1⟩]

/-- A label-write body with every required field present and the given
confidence value. -/
def mkLabelBody (q : ℚ) : JsVal :=
  .obj [("ticker", .str "TST"), ("mode", .str "conservative"),
        ("idea_source", .str "scanner"), ("timeframe", .str "swing"),
        ("exit_intent", .str "hard_stop_only"), ("confidence", .num (.fin q))]

/-- An empty snapshot file. -/
def emptyCards : CardsFileM := ⟨some "2024-01-01T00:00:00Z", []⟩

/-- A card that carries both a labels array (first entry AAA) and a
top-level label field ZZZ, exposing the spread order of cardToSignal. -/
def cardWithLabelField : List (String × JsVal) :=
  [("ticker", .str "ABC"), ("price", .num (.fin 100)),
   ("labels", .arr [.str "AAA"]), ("label", .str "ZZZ")]

/-- The same card without the top-level label field. -/
def cardWithoutLabelField : List (String × JsVal) :=
  [("ticker", .str "ABC"), ("price", .num (.fin 100)),
   ("labels", .arr [.str "AAA"])]

/-- The value stored at a key after one coercion step: unchanged when the
typeof-undefined guard skipped it, otherwise Number of it. -/
def coercedVal (stn : String → JsNum) : Option JsVal → Option JsVal
  | none => none
  | some .undefined => some .undefined
  | some v => some (.num (toNumber stn v))

theorem lookup_set_self (k : String) (v : JsVal) (fs : List (String × JsVal)) :
    lookupField k (setField k v fs) = some v := by
  induction fs with
  | nil => simp [setField, lookupField]
  | cons p rest ih =>
    rcases p with ⟨k1, v1⟩
    by_cases h : k1 = k
    · simp [setField, lookupField, h]
    · simp [setField, lookupField, h, ih]

theorem lookup_set_ne (k k1 : String) (v : JsVal) (fs : List (String × JsVal))
    (h : k1 ≠ k) : lookupField k (setField k1 v fs) = lookupField k fs := by
  induction fs with
  | nil => simp [setField, lookupField, h]
  | cons p rest ih =>
    rcases p with ⟨k2, v2⟩
    by_cases h2 : k2 = k1
    · subst h2
      simp [setField, lookupField, h]
    · by_cases h3 : k2 = k
      · simp [setField, lookupField, h2, h3, Ne.symm h]
      · simp [setField, lookupField, h2, h3, ih]

theorem set_of_lookup_eq (k : String) (v : JsVal) (fs : List (String × JsVal))
    (h : lookupField k fs = some v) : setField k v fs = fs := by
  induction fs with
  | nil => simp [lookupField] at h
  | cons p rest ih =>
    rcases p with ⟨k1, v1⟩
    by_cases h1 : k1 = k
    · subst h1
      simp [lookupField] at h
      simp [setField, h]
    · simp [lookupField, h1] at h
      simp [setField, h1, ih h]

theorem lookup_coerceNumField_self (stn : String → JsNum) (k : String)
    (fs : List (String × JsVal)) :
    lookupField k (coerceNumField stn k fs) = coercedVal stn (lookupField k fs) := by
  rcases hl : lookupField k fs with _ | v
  · simp [coerceNumField, coercedVal, hl]
  · cases v <;> simp [coerceNumField, coercedVal, hl, lookup_set_self]

theorem lookup_coerceNumField_ne (stn : String → JsNum) (k k1 : String)
    (fs : List (String × JsVal)) (h : k1 ≠ k) :
    lookupField k (coerceNumField stn k1 fs) = lookupField k fs := by
  unfold coerceNumField
  rcases hl : lookupField k1 fs with _ | v
  · rfl
  · cases v <;> simp [lookup_set_ne _ _ _ _ h]

theorem coerceNumField_absorb (stn : String → JsNum) (k : String)
    (fs : List (String × JsVal))
    (h : ∀ v, lookupField k fs = some v → v = .undefined ∨ ∃ n, v = .num n) :
    coerceNumField stn k fs = fs := by
  unfold coerceNumField
  rcases hl : lookupField k fs with _ | v
  · rfl
  · rcases h v hl with h1 | ⟨n, h1⟩ <;> subst h1
    · rfl
    · exact set_of_lookup_eq _ _ _ hl

theorem coercedVal_shape (stn : String → JsNum) (o : Option JsVal) :
    ∀ v, coercedVal stn o = some v → v = .undefined ∨ ∃ n, v = .num n := by
  intro v hv
  rcases o with _ | w
  · simp [coercedVal] at hv
  · cases w
    case undefined => simp [coercedVal] at hv; simp [hv]
    all_goals simp [coercedVal] at hv
    all_goals exact Or.inr ⟨_, hv.symm⟩

theorem coerceZone_idem (stn : String → JsNum) (z : JsVal) :
    coerceZone stn (coerceZone stn z) = coerceZone stn z := by
  cases z with
  | obj zf =>
    have hlow : coerceNumField stn "low"
        (coerceNumField stn "high" (coerceNumField stn "low" zf)) =
        coerceNumField stn "high" (coerceNumField stn "low" zf) := by
      apply coerceNumField_absorb
      intro v hv
      rw [lookup_coerceNumField_ne _ _ _ _ (by decide),
        lookup_coerceNumField_self] at hv
      exact coercedVal_shape _ _ _ hv
    have hhigh : coerceNumField stn "high"
        (coerceNumField stn "high" (coerceNumField stn "low" zf)) =
        coerceNumField stn "high" (coerceNumField stn "low" zf) := by
      apply coerceNumField_absorb
      intro v hv
      rw [lookup_coerceNumField_self] at hv
      exact coercedVal_shape _ _ _ hv
    simp only [coerceZone]
    rw [hlow, hhigh]
  | undefined => rfl
  | null => rfl
  | bool b => rfl
  | num n => rfl
  | str s => rfl
  | arr l => rfl

theorem coerceZone_objLike (stn : String → JsNum) (z : JsVal) :
    isObjLike (coerceZone stn z) = isObjLike z := by
  cases z <;> rfl

theorem coerceZone_truthy (stn : String → JsNum) (z : JsVal) :
    truthy (coerceZone stn z) = truthy z := by
  cases z <;> rfl

theorem lookup_coerceZoneField_ne (stn : String → JsNum) (k : String)
    (fs : List (String × JsVal)) (h : "zone" ≠ k) :
    lookupField k (coerceZoneField stn fs) = lookupField k fs := by
  unfold coerceZoneField
  rcases hl : lookupField "zone" fs with _ | z
  · rfl
  · by_cases hg : (truthy z && isObjLike z) = true
    · simp [hg, lookup_set_ne _ _ _ _ h]
    · simp [hg]

theorem coerceZoneField_absorb (stn : String → JsNum) (fs : List (String × JsVal))
    (h : ∀ z, lookupField "zone" fs = some z → coerceZone stn z = z) :
    coerceZoneField stn fs = fs := by
  unfold coerceZoneField
  rcases hl : lookupField "zone" fs with _ | z
  · rfl
  · by_cases hg : (truthy z && isObjLike z) = true
    · simp only [hg, if_true]
      rw [h z hl]
      exact set_of_lookup_eq _ _ _ hl
    · simp [hg]

theorem lookup_coerceZoneField_zone (stn : String → JsNum)
    (fs : List (String × JsVal)) :
    ∀ z, lookupField "zone" (coerceZoneField stn fs) = some z →
      coerceZone stn z = z := by
  intro z hz
  rcases hl : lookupField "zone" fs with _ | z0
  · simp only [coerceZoneField, hl] at hz
    simp at hz
  · by_cases hg : (truthy z0 && isObjLike z0) = true
    · simp only [coerceZoneField, hl, if_pos hg] at hz
      rw [lookup_set_self] at hz
      obtain rfl := Option.some.inj hz
      exact coerceZone_idem stn z0
    · simp only [coerceZoneField, hl, if_neg hg] at hz
      obtain rfl := Option.some.inj hz
      cases z0 with
      | obj zf => simp [truthy, isObjLike] at hg
      | arr l => simp [truthy, isObjLike] at hg
      | undefined => rfl
      | null => rfl
      | bool b => rfl
      | num n => rfl
      | str s => rfl

theorem entryPipeline_idem (stn : String → JsNum) (fs : List (String × JsVal)) :
    coerceNumField stn "price" (coerceZoneField stn (coerceNumField stn "trigger"
      (coerceNumField stn "price" (coerceZoneField stn
        (coerceNumField stn "trigger" fs))))) =
    coerceNumField stn "price" (coerceZoneField stn (coerceNumField stn "trigger" fs)) := by
  set Y := coerceNumField stn "price" (coerceZoneField stn
    (coerceNumField stn "trigger" fs)) with hY
  have s1 : coerceNumField stn "trigger" Y = Y := by
    apply coerceNumField_absorb
    intro v hv
    rw [hY, lookup_coerceNumField_ne _ _ _ _ (by decide),
      lookup_coerceZoneField_ne _ _ _ (by decide), lookup_coerceNumField_self] at hv
    exact coercedVal_shape _ _ _ hv
  have s2 : coerceZoneField stn Y = Y := by
    apply coerceZoneField_absorb
    intro z hz
    rw [hY, lookup_coerceNumField_ne _ _ _ _ (by decide)] at hz
    exact lookup_coerceZoneField_zone _ _ _ hz
  have s3 : coerceNumField stn "price" Y = Y := by
    apply coerceNumField_absorb
    intro v hv
    rw [hY, lookup_coerceNumField_self] at hv
    exact coercedVal_shape _ _ _ hv
  rw [s1, s2, s3]

theorem normalizeEntryV1_idem (stn : String → JsNum) (e : JsVal) :
    normalizeEntryV1 stn (normalizeEntryV1 stn e) = normalizeEntryV1 stn e := by
  by_cases ht : truthy e = true
  · have h1 : normalizeEntryV1 stn e = .obj (coerceNumField stn "price"
        (coerceZoneField stn (coerceNumField stn "trigger" (spreadFields e)))) := by
      unfold normalizeEntryV1
      rw [if_pos ht]
    rw [h1]
    unfold normalizeEntryV1
    rw [if_pos (show truthy (.obj _) = true from rfl)]
    exact congrArg JsVal.obj (entryPipeline_idem stn (spreadFields e))
  · have h1 : normalizeEntryV1 stn e = .obj [] := by
      unfold normalizeEntryV1
      rw [if_neg ht]
    rw [h1]
    rfl

theorem normalizeEntryV2_fix (e : JsVal) (h : normalizeEntryV2 e = e) :
    normalizeEntryV2 (normalizeEntryV2 e) = normalizeEntryV2 e := by
  rw [h, h]

theorem normalizeEntryV2_cases (e : JsVal) :
    normalizeEntryV2 e = e ∨ normalizeEntryV2 e = .obj [("price", .null)] ∨
      ∃ fs n, normalizeEntryV2 e = .obj fs ∧ lookupField "price" fs = some (.num n) := by
  unfold normalizeEntryV2
  split
  · split
    · exact Or.inr (Or.inr ⟨_, _, rfl, rfl⟩)
    · split
      · exact Or.inl rfl
      · split
        · exact Or.inr (Or.inr ⟨_, _, rfl, lookup_set_self _ _ _⟩)
        · split
          · split
            · exact Or.inr (Or.inr ⟨_, _, rfl, lookup_set_self _ _ _⟩)
            · exact Or.inl rfl
          · exact Or.inl rfl
  · exact Or.inr (Or.inl rfl)

theorem normalizeEntryV2_obj_price_num (fs : List (String × JsVal)) (n : JsNum)
    (hp : lookupField "price" fs = some (.num n)) :
    normalizeEntryV2 (.obj fs) = .obj fs := by
  unfold normalizeEntryV2
  rw [if_pos (show truthy (JsVal.obj fs) = true from rfl)]
  simp only [jsGet, hp, Option.getD_some]

theorem normalizeEntryV2_idem (e : JsVal) :
    normalizeEntryV2 (normalizeEntryV2 e) = normalizeEntryV2 e := by
  rcases normalizeEntryV2_cases e with h | h | ⟨fs, n, h, hp⟩
  · rw [h, h]
  · rw [h]
    rfl
  · rw [h]
    exact normalizeEntryV2_obj_price_num fs n hp

theorem lookup_append (k : String) (l1 l2 : List (String × JsVal)) :
    lookupField k (l1 ++ l2) =
      match lookupField k l1 with
      | some v => some v
      | none => lookupField k l2 := by
  induction l1 with
  | nil => simp [lookupField]
  | cons p rest ih =>
    rcases p with ⟨k1, v1⟩
    by_cases h : k1 = k
    · simp [lookupField, h]
    · simp [lookupField, h, ih]

theorem lookup_eq_none_iff (k : String) (l : List (String × JsVal)) :
    lookupField k l = none ↔ k ∉ l.map Prod.fst := by
  induction l with
  | nil => simp [lookupField]
  | cons p rest ih =>
    rcases p with ⟨k1, v1⟩
    by_cases h : k1 = k
    · simp [lookupField, h]
    · simp [lookupField, h, ih, Ne.symm h]

theorem lookup_reverse_nodup (k : String) (l : List (String × JsVal))
    (h : (l.map Prod.fst).Nodup) :
    lookupField k l.reverse = lookupField k l := by
  induction l with
  | nil => rfl
  | cons p rest ih =>
    rcases p with ⟨k1, v1⟩
    simp only [List.map_cons, List.nodup_cons] at h
    rw [List.reverse_cons, lookup_append]
    by_cases hk : k1 = k
    · subst hk
      have h0 : lookupField k1 rest = none := (lookup_eq_none_iff _ _).mpr h.1
      rw [ih h.2, h0]
      simp [lookupField]
    · rw [ih h.2]
      rcases hr : lookupField k rest with _ | v
      · simp [lookupField, hk, hr]
      · simp [lookupField, hk, hr]

theorem lookup_putAll (k : String) (ps acc : List (String × JsVal)) :
    lookupField k (putAll acc ps) =
      match lookupField k ps.reverse with
      | some v => some v
      | none => lookupField k acc := by
  induction ps generalizing acc with
  | nil => simp [putAll, lookupField]
  | cons p rest ih =>
    rcases p with ⟨k1, v1⟩
    show lookupField k (putAll (setField k1 v1 acc) rest) = _
    rw [ih]
    rw [List.reverse_cons, lookup_append]
    rcases hr : lookupField k rest.reverse with _ | v
    · by_cases hk : k1 = k
      · subst hk
        simp [lookupField, lookup_set_self]
      · simp [lookupField, hk, lookup_set_ne _ _ _ _ hk]
    · rfl

theorem orderedInsert_ext {α : Type} (r r2 : α → α → Prop) [DecidableRel r]
    [DecidableRel r2] (h : ∀ a b, r a b ↔ r2 a b) (a : α) (l : List α) :
    l.orderedInsert r a = l.orderedInsert r2 a := by
  induction l with
  | nil => rfl
  | cons b t ih =>
    unfold List.orderedInsert
    by_cases hr : r a b
    · rw [if_pos hr, if_pos ((h a b).mp hr)]
    · rw [if_neg hr, if_neg (fun h2 => hr ((h a b).mpr h2)), ih]

theorem insertionSort_ext {α : Type} (r r2 : α → α → Prop) [DecidableRel r]
    [DecidableRel r2] (h : ∀ a b, r a b ↔ r2 a b) (l : List α) :
    l.insertionSort r = l.insertionSort r2 := by
  induction l with
  | nil => rfl
  | cons b t ih =>
    unfold List.insertionSort
    rw [ih, orderedInsert_ext r r2 h]

theorem candLe_iff_specLe (a b : CandRow) : candLe a b ↔ specLe a b := by
  unfold candLe candCmp specLe
  rcases eq_or_ne (labelRank a.label) (labelRank b.label) with h | h
  · rw [if_neg (by simp [h])]
    rcases eq_or_ne (a.rs_vs_spy.getD 0) (b.rs_vs_spy.getD 0) with h2 | h2
    · rw [if_neg (by simp [h2])]
      constructor
      · intro hle
        exact Or.inr ⟨h, Or.inr ⟨h2, by linarith⟩⟩
      · rintro (hlt | ⟨_, hrs | ⟨_, hv⟩⟩)
        · omega
        · rw [h2] at hrs
          exact absurd hrs (lt_irrefl _)
        · linarith
    · rw [if_pos h2]
      constructor
      · intro hle
        exact Or.inr ⟨h, Or.inl (lt_of_le_of_ne (by linarith) (Ne.symm h2))⟩
      · rintro (hlt | ⟨_, hrs | ⟨heq, _⟩⟩)
        · omega
        · linarith
        · exact absurd heq h2
  · rw [if_pos (by simpa using h)]
    constructor
    · intro hle
      have : (labelRank a.label : ℚ) ≤ (labelRank b.label : ℚ) := by linarith
      have h3 : labelRank a.label ≤ labelRank b.label := by exact_mod_cast this
      exact Or.inl (lt_of_le_of_ne h3 h)
    · rintro (hlt | ⟨heq, _⟩)
      · have : (labelRank a.label : ℚ) < (labelRank b.label : ℚ) := by exact_mod_cast hlt
        linarith
      · exact absurd heq h

/-- C9: the entry-coercion post-pass is idempotent: for every entry value
e (and, for the route.ts variant, every string-to-number parser),
normalizeEntry (normalizeEntry e) = normalizeEntry e, in both the
src/app/api/signals/route.ts and the src/unnamed/part_002 variant. -/
theorem C9_normalizeEntry_idempotent :
    (∀ (stn : String → JsNum) (e : JsVal),
      normalizeEntryV1 stn (normalizeEntryV1 stn e) = normalizeEntryV1 stn e) ∧
    (∀ e : JsVal, normalizeEntryV2 (normalizeEntryV2 e) = normalizeEntryV2 e) :=
  ⟨normalizeEntryV1_idem, normalizeEntryV2_idem⟩

/-- C5: the review-priority ranking of src/unnamed/part_003 coincides on
every batch with the spec ordering by the tuple
(labelRank, -rs_vs_spy, -vol_z) with stable ties, returns at most 10
candidates, and sorts the scenario labels WATCH, READY_CONFIRMED,
EARLY_BREAKOUT (equal rs and vol_z) as READY_CONFIRMED, EARLY_BREAKOUT,
WATCH. -/
theorem C5_review_ranking :
    (∀ l : List CandRow, reviewRank l = specReviewRank l) ∧
    (∀ l : List CandRow, (reviewRank l).length ≤ 10) ∧
    (reviewRank candExample).map (fun c => c.label) =
      ["READY_CONFIRMED", "EARLY_BREAKOUT", "WATCH"] := by
  refine ⟨fun l => ?_, fun l => ?_, ?_⟩
  · unfold reviewRank specReviewRank
    rw [insertionSort_ext candLe specLe candLe_iff_specLe l]
  · unfold reviewRank
    simp [List.length_take]
  · have h1 : labelRank "WATCH" = 2 := by decide
    have h2 : labelRank "READY_CONFIRMED" = 0 := by decide
    have h3 : labelRank "EARLY_BREAKOUT" = 1 := by decide
    norm_num [reviewRank, candExample, List.insertionSort, List.orderedInsert,
      candLe, candCmp, h1, h2, h3]

/-- C3: for every signal (and every string-to-number parser), the derived
rr of src/app/page.tsx equals reward / risk when risk and reward are
both positive and is 0 in every other case; in particular an entry
reference equal to the stop price, or a first target equal to the entry
reference, yields rr = 0 rather than a division by zero. -/
theorem C3_rr_guard :
    ∀ (stn : String → JsNum) (s : JsVal),
      ((0 < riskD stn s ∧ 0 < rewardD stn s) →
        rrD stn s = rewardD stn s / riskD stn s) ∧
      (¬(0 < riskD stn s ∧ 0 < rewardD stn s) → rrD stn s = 0) ∧
      (entryRefD stn s = stopPriceD stn s → rrD stn s = 0) ∧
      (tp1D stn s = entryRefD stn s → rrD stn s = 0) := by
  intro stn s
  refine ⟨fun h => ?_, fun h => ?_, fun h => ?_, fun h => ?_⟩
  · rw [rrD, if_pos h]
  · rw [rrD, if_neg h]
  · rw [rrD, if_neg ?_]
    rintro ⟨h1, _⟩
    rw [riskD, h] at h1
    simp at h1
  · rw [rrD, if_neg ?_]
    rintro ⟨_, h2⟩
    rw [rewardD, h] at h2
    simp at h2

/-- C3 witness: the sample signal (entry 1, stop 0, target 3) has
positive risk and reward and rr = reward / risk; the flat sample signal
(entry 5, stop 5) hits the equal-boundary case and gets rr = 0. -/
theorem C3_rr_guard_witness :
    (0 < riskD strToNumSimple sampleSignal ∧ 0 < rewardD strToNumSimple sampleSignal) ∧
    rrD strToNumSimple sampleSignal =
      rewardD strToNumSimple sampleSignal / riskD strToNumSimple sampleSignal ∧
    entryRefD strToNumSimple sampleSignalFlat = stopPriceD strToNumSimple sampleSignalFlat ∧
    rrD strToNumSimple sampleSignalFlat = 0 := by
  have e1 : entryRefD strToNumSimple sampleSignal = 1 := rfl
  have s1 : stopPriceD strToNumSimple sampleSignal = 0 := rfl
  have t1 : tp1D strToNumSimple sampleSignal = 3 := rfl
  have h : 0 < riskD strToNumSimple sampleSignal ∧ 0 < rewardD strToNumSimple sampleSignal := by
    rw [riskD, rewardD, e1, s1, t1]
    norm_num
  have h2 : entryRefD strToNumSimple sampleSignalFlat = stopPriceD strToNumSimple sampleSignalFlat := rfl
  exact ⟨h, (C3_rr_guard strToNumSimple sampleSignal).1 h, h2,
    (C3_rr_guard strToNumSimple sampleSignalFlat).2.2.1 h2⟩

/-- C4 counterexample: the sample signal has no probability (so it
defaults to 0) and rr = 2 ≠ 0, yet ev = -1; so "ev = -1 exactly when
rr = 0" fails in the only-if direction at this input. -/
theorem C4_counterexample_ev_neg_one_with_positive_rr :
    probJsD sampleSignal = .null ∧
    evD strToNumSimple sampleSignal = .fin (-1) ∧
    rrD strToNumSimple sampleSignal = 2 ∧ (2 : ℚ) ≠ 0 := by
  have hrisk : riskD strToNumSimple sampleSignal = 1 - 0 := rfl
  have hrew : rewardD strToNumSimple sampleSignal = 3 - 1 := rfl
  have hpos : 0 < riskD strToNumSimple sampleSignal ∧
      0 < rewardD strToNumSimple sampleSignal := by
    rw [hrisk, hrew]
    norm_num
  have rr2 : rrD strToNumSimple sampleSignal = 2 := by
    rw [rrD, if_pos hpos, hrisk, hrew]
    norm_num
  refine ⟨rfl, ?_, rr2, by norm_num⟩
  have he : evD strToNumSimple sampleSignal =
      jsSub (jsMul (.fin 0) (.fin (rrD strToNumSimple sampleSignal)))
        (jsSub (.fin 1) (.fin 0)) := rfl
  rw [he, rr2]
  norm_num [jsMul, jsSub]

/-- C4 amended: whenever the coalesced probability of a signal is 0 or
absent (null), the derived ev of src/app/page.tsx equals -1 regardless
of rr; in particular ev = -1 when rr = 0, but also when rr is positive,
so ev = -1 is not equivalent to rr = 0. -/
theorem C4_ev_neg_one_when_prob_zero :
    ∀ (stn : String → JsNum) (s : JsVal),
      (probJsD s = .null ∨ probJsD s = .num (.fin 0)) →
      evD stn s = .fin (-1) := by
  intro stn s h
  have hp : toNumber stn (orJs (probJsD s) (.num (.fin 0))) = .fin 0 := by
    rcases h with h | h <;> rw [h] <;> rfl
  have he : evD stn s =
      jsSub (jsMul (toNumber stn (orJs (probJsD s) (.num (.fin 0))))
        (.fin (rrD stn s))) (jsSub (.fin 1)
        (toNumber stn (orJs (probJsD s) (.num (.fin 0))))) := rfl
  rw [he, hp]
  show JsNum.fin (0 * rrD stn s - (1 - 0)) = .fin (-1)
  exact congrArg JsNum.fin (by ring)

/-- C4 witness: the amended theorem applied to the sample signal, whose
probability is absent. -/
theorem C4_ev_neg_one_when_prob_zero_witness :
    (probJsD sampleSignal = .null ∨ probJsD sampleSignal = .num (.fin 0)) ∧
    evD strToNumSimple sampleSignal = .fin (-1) :=
  ⟨Or.inl rfl, C4_ev_neg_one_when_prob_zero strToNumSimple sampleSignal (Or.inl rfl)⟩

/-- C6 counterexample: with the review/teach secret unset (or empty),
mustAuth of src/unnamed/part_003 and requireTeachToken of
src/unnamed/part_004 reject every request instead of passing it, so the
claimed open development mode does not hold on the teach surfaces. -/
theorem C6_counterexample_teach_closed_when_unset :
    mustAuth none (some "Bearer sekret") = false ∧
    requireTeachToken none (some "sekret") = false ∧
    mustAuth (some "") (some "Bearer sekret") = false := by
  exact ⟨rfl, rfl, rfl⟩

/-- C6 amended: an unset or empty secret opens authorization only on the
ingest surface (assertAuth of src/app/api/ingest-scan/route.ts); the
teach surfaces (mustAuth of src/unnamed/part_003 and requireTeachToken
of src/unnamed/part_004) instead reject every request when TEACH_TOKEN
is unset or empty. -/
theorem C6_amended_auth_when_secret_unset :
    (∀ x a : Option String, assertAuth none x a = true) ∧
    (∀ x a : Option String, assertAuth (some "") x a = true) ∧
    (∀ a : Option String, mustAuth none a = false) ∧
    (∀ a : Option String, mustAuth (some "") a = false) ∧
    (∀ a : Option String, requireTeachToken none a = false) ∧
    (∀ a : Option String, requireTeachToken (some "") a = false) := by
  refine ⟨fun x a => rfl, fun x a => rfl, fun a => rfl, fun a => rfl,
    fun a => rfl, fun a => rfl⟩

/-- C10 counterexample: a label body with confidence 42 passes the
writer's validation and the persisted row carries confidence 42, which
lies outside 1..10. -/
theorem C10_counterexample_confidence_42_persisted :
    (writeLabel strToNumSimple (mkLabelBody 42)).toOption.map
      (fun r => r.confidence) = some (.fin 42) ∧
    ¬((1 : ℚ) ≤ 42 ∧ (42 : ℚ) ≤ 10) := by
  exact ⟨rfl, by norm_num⟩

/-- C10 amended: the label writer of src/unnamed/part_004 checks only
that confidence is present and non-empty and persists Number of it
unchanged; every rational confidence value, including values outside
1..10, is accepted and persisted. -/
theorem C10_amended_no_confidence_range_check :
    ∀ (stn : String → JsNum) (q : ℚ),
      (writeLabel stn (mkLabelBody q)).toOption.map (fun r => r.confidence) =
        some (.fin q) := by
  intro stn q
  rfl

/-- C7 counterexample: a limit parameter of 0 is requested as 0 rows by
GET of src/app/api/signals/route.ts, while clamping into [1,1000] as
claimed would request 1. -/
theorem C7_counterexample_limit_zero_not_clamped :
    requestedLimitV1 strToNumSimple (some "0") = .fin 0 ∧
    JsNum.fin (min (max (0 : ℚ) 1) 1000) = .fin 1 ∧ (0 : ℚ) ≠ 1 := by
  refine ⟨?_, by norm_num, by norm_num⟩
  have h0 : strToNumSimple "0" = .fin (1 * (digitsNat ['0'] : ℚ)) := rfl
  show jsMin (strToNumSimple "0") (.fin 1000) = .fin 0
  rw [h0]
  have e0 : digitsNat ['0'] = 0 := rfl
  rw [e0]
  norm_num [jsMin]

/-- C7 amended: the part_002 route requests exactly the limit clamped
into [1,1000] (default 200); the src/app/api/signals/route.ts route only
caps the limit above at 1000 (default 200) and performs no lower clamp,
so it agrees with the claimed clamp exactly when the supplied limit is
at least 1. -/
theorem C7_amended_limit_clamp :
    (∀ (stn : String → JsNum) (s : String) (q : ℚ), stn s = .fin q →
      requestedLimitV2 stn (some s) = .fin (min (max q 1) 1000)) ∧
    (∀ stn : String → JsNum, stn "200" = .fin 200 →
      requestedLimitV1 stn none = .fin 200 ∧ requestedLimitV2 stn none = .fin 200) ∧
    (∀ (stn : String → JsNum) (s : String) (q : ℚ), stn s = .fin q →
      requestedLimitV1 stn (some s) = .fin (min q 1000)) ∧
    (∀ (stn : String → JsNum) (s : String) (q : ℚ), stn s = .fin q → 1 ≤ q →
      requestedLimitV1 stn (some s) = .fin (min (max q 1) 1000)) := by
  refine ⟨fun stn s q h => ?_, fun stn h => ⟨?_, ?_⟩, fun stn s q h => ?_,
    fun stn s q h h1 => ?_⟩
  · show jsMin (jsMax (stn s) (.fin 1)) (.fin 1000) = _
    rw [h]
    rfl
  · show jsMin (stn "200") (.fin 1000) = _
    rw [h]
    norm_num [jsMin]
  · show jsMin (jsMax (stn "200") (.fin 1)) (.fin 1000) = _
    rw [h]
    norm_num [jsMin, jsMax]
  · show jsMin (stn s) (.fin 1000) = _
    rw [h]
    rfl
  · show jsMin (stn s) (.fin 1000) = _
    rw [h, max_eq_left h1]
    rfl

/-- C7 witness: with the concrete parser, a limit parameter of 5 is
requested as 5 by both routes and an absent parameter defaults to 200. -/
theorem C7_amended_limit_clamp_witness :
    strToNumSimple "5" = .fin 5 ∧ (1 : ℚ) ≤ 5 ∧
    strToNumSimple "200" = .fin 200 ∧
    requestedLimitV2 strToNumSimple (some "5") = .fin (min (max (5 : ℚ) 1) 1000) ∧
    requestedLimitV1 strToNumSimple (some "5") = .fin (min (max (5 : ℚ) 1) 1000) ∧
    requestedLimitV1 strToNumSimple none = .fin 200 := by
  have h5 : strToNumSimple "5" = .fin 5 := by
    have : strToNumSimple "5" = .fin (1 * (digitsNat ['5'] : ℚ)) := rfl
    have e5 : digitsNat ['5'] = 5 := rfl
    rw [this, e5]
    norm_num
  have h200 : strToNumSimple "200" = .fin 200 := by
    have : strToNumSimple "200" = .fin (1 * (digitsNat ['2', '0', '0'] : ℚ)) := rfl
    have e200 : digitsNat ['2', '0', '0'] = 200 := rfl
    rw [this, e200]
    norm_num
  exact ⟨h5, by norm_num, h200,
    C7_amended_limit_clamp.1 strToNumSimple "5" 5 h5,
    C7_amended_limit_clamp.2.2.2 strToNumSimple "5" 5 h5 (by norm_num),
    (C7_amended_limit_clamp.2.1 strToNumSimple h200).1⟩

/-- C8 counterexample: in the part_002 fallback, one failed snapshot read
(ready) rejects the whole orchestration even though the other two tiers
read fine, instead of contributing an empty tier. -/
theorem C8_counterexample_one_failed_read_fails_all :
    fallbackSignalsV2 strToNumSimple (.error "ENOENT") (.ok emptyCards)
      (.ok emptyCards) "t" = .error "ENOENT" := rfl

/-- C8 amended: in src/app/api/signals/route.ts, whichever snapshot
files fail to read contribute empty tiers while the remaining tiers are
still returned: for every combination of present and failed files the
result is a permutation of the surviving tiers' signals (a failed file
contributing the empty list). In the src/unnamed/part_002 variant a
single failed read, in any of the three positions, fails the whole
fallback invocation. -/
theorem C8_amended_fallback_tolerance :
    (∀ (stn : String → JsNum) (ready early watch : Option CardsFileM)
      (now : String),
      (fallbackSignalsV1 stn ready early watch now).Perm
        ((match ready with
          | some f => cardsFileToSignals stn f "READY_CONFIRMED" now
          | none => []) ++
         (match early with
          | some f => cardsFileToSignals stn f "EARLY" now
          | none => []) ++
         (match watch with
          | some f => cardsFileToSignals stn f "WATCH" now
          | none => []))) ∧
    (∀ (stn : String → JsNum) (m : String) (e w : Except String CardsFileM)
      (now : String), fallbackSignalsV2 stn (.error m) e w now = .error m) ∧
    (∀ (stn : String → JsNum) (r : CardsFileM) (m : String)
      (w : Except String CardsFileM) (now : String),
      fallbackSignalsV2 stn (.ok r) (.error m) w now = .error m) ∧
    (∀ (stn : String → JsNum) (r e : CardsFileM) (m : String) (now : String),
      fallbackSignalsV2 stn (.ok r) (.ok e) (.error m) now = .error m) := by
  refine ⟨fun stn ready early watch now => ?_, fun stn m e w now => ?_,
    fun stn r m w now => ?_, fun stn r e m now => ?_⟩
  · unfold fallbackSignalsV1
    exact List.perm_insertionSort fbLe _
  · cases e <;> cases w <;> rfl
  · cases w <;> rfl
  · rfl

/-- C1 counterexample: a successful primary query is tagged "supabase",
not "primary", and a responded store error is tagged
"fallback_after_db_error", not "fallback_after_error". -/
theorem C1_counterexample_source_literals :
    (GETv1 strToNumSimple none none (.rows []) none none none "t").source =
      "supabase" ∧
    "supabase" ≠ "primary" ∧
    (GETv1 strToNumSimple none none (.queryError "boom") none none none "t").source =
      "fallback_after_db_error" ∧
    "fallback_after_db_error" ≠ "fallback_after_error" := by
  exact ⟨rfl, by decide, rfl, by decide⟩

/-- C1 amended: the fallback chain holds with the literal tags the code
uses: a successful primary query is served with source "supabase", a
responded store error with source "fallback_after_db_error", and an
unconfigured store or a throw before the query with source "fallback"
(for part_002, whenever the route produces a response at all). -/
theorem C1_amended_source_tags :
    ∀ (stn : String → JsNum) (lp lb : Option String) (now : String)
      (r1 e1 w1 : Option CardsFileM) (r2 e2 w2 : Except String CardsFileM),
      (∀ data, (GETv1 stn lp lb (.rows data) r1 e1 w1 now).source = "supabase") ∧
      (∀ m, (GETv1 stn lp lb (.queryError m) r1 e1 w1 now).source =
        "fallback_after_db_error") ∧
      (∀ m, (GETv1 stn lp lb (.throwsBefore m) r1 e1 w1 now).source = "fallback") ∧
      (∀ data, (GETv2 stn lp lb (.rows data) r2 e2 w2 now).map
        (fun r => r.source) = .ok "supabase") ∧
      (∀ m, (GETv2 stn lp lb (.queryError m) r2 e2 w2 now).map (fun r => r.source) =
        (fallbackSignalsV2 stn r2 e2 w2 now).map
          (fun _ => "fallback_after_db_error")) ∧
      ((GETv2 stn lp lb .noConfig r2 e2 w2 now).map (fun r => r.source) =
        (fallbackSignalsV2 stn r2 e2 w2 now).map (fun _ => "fallback")) := by
  intro stn lp lb now r1 e1 w1 r2 e2 w2
  refine ⟨fun data => rfl, fun m => rfl, fun m => rfl, fun data => rfl,
    fun m => ?_, ?_⟩
  · have hg : GETv2 stn lp lb (.queryError m) r2 e2 w2 now =
        (fallbackSignalsV2 stn r2 e2 w2 now).map (fun fb =>
          { source := "fallback_after_db_error", error := some m,
            signals := fb }) := rfl
    rw [hg]
    rcases hfb : fallbackSignalsV2 stn r2 e2 w2 now with m2 | fb <;> rfl
  · have hg : GETv2 stn lp lb .noConfig r2 e2 w2 now =
        (fallbackSignalsV2 stn r2 e2 w2 now).map (fun fb =>
          { source := "fallback", error := none,
            signals := jsSlice0 (labelFilter lb fb)
              (jsMin (.fin ((labelFilter lb fb).length : ℚ))
                (toNumber stn (.str (lp.getD "200")))) }) := rfl
    rw [hg]
    rcases hfb : fallbackSignalsV2 stn r2 e2 w2 now with m2 | fb <;> rfl

/-- C2 counterexample: for a card carrying both labels = [AAA] and a
top-level label field ZZZ, cardToSignal returns label ZZZ — the
pass-through card spread overwrites the explicitly computed label
(which is AAA, as the same card without the extra field shows). -/
theorem C2_counterexample_pass_through_wins :
    jsGet (cardToSignal strToNumSimple cardWithLabelField
      "2024-01-02T00:00:00Z" "WATCH") "label" = .str "ZZZ" ∧
    jsGet (cardToSignal strToNumSimple cardWithoutLabelField
      "2024-01-02T00:00:00Z" "WATCH") "label" = .str "AAA" ∧
    JsVal.str "ZZZ" ≠ .str "AAA" := by
  refine ⟨rfl, rfl, fun h => ?_⟩
  exact absurd (JsVal.str.inj h) (by decide)

/-- C2 amended: the trailing card spread in cardToSignal assigns the
card's own fields last, so for every card field (same-named or not) the
produced Signal carries the card's value, overwriting any explicitly
computed field of the same name; an explicitly computed field survives
only when the card has no field of that name. -/
theorem C2_amended_card_fields_override :
    ∀ (stn : String → JsNum) (card : List (String × JsVal))
      (as_of dl k : String) (v : JsVal),
      (card.map Prod.fst).Nodup → lookupField k card = some v →
      jsGet (cardToSignal stn card as_of dl) k = v := by
  intro stn card as_of dl k v hnd hl
  obtain ⟨ps, hps⟩ : ∃ ps, cardToSignal stn card as_of dl = objLit (ps ++ card) :=
    ⟨_, rfl⟩
  rw [hps]
  show (lookupField k (putAll [] (ps ++ card))).getD .undefined = v
  rw [lookup_putAll, List.reverse_append, lookup_append,
    lookup_reverse_nodup k card hnd, hl]
  rfl

/-- C2 witness: the amended theorem applied to the card with the
top-level label field. -/
theorem C2_amended_card_fields_override_witness :
    (cardWithLabelField.map Prod.fst).Nodup ∧
    lookupField "label" cardWithLabelField = some (.str "ZZZ") ∧
    jsGet (cardToSignal strToNumSimple cardWithLabelField
      "2024-01-02T00:00:00Z" "WATCH") "label" = .str "ZZZ" := by
  have h1 : (cardWithLabelField.map Prod.fst).Nodup := by decide
  have h2 : lookupField "label" cardWithLabelField = some (.str "ZZZ") := rfl
  exact ⟨h1, h2, C2_amended_card_fields_override strToNumSimple cardWithLabelField
    "2024-01-02T00:00:00Z" "WATCH" "label" (.str "ZZZ") h1 h2⟩
